import Mathlib

/-!
# FurNet frontend: formal model of the friend-linking and monitoring logic

Shallow embedding of the protocol logic of the FurNet React frontend:

* `addFriend` in `frontend/src/App.jsx` (the friend-linking flow), and
* the `Monitoring` component in `frontend/src/components/AnimalProfile.jsx`
  (the recurring health-check loop with its mutable instance set).

Network calls are modelled by passing the responses in explicitly; React
effect / `setInterval` scheduling is modelled by an explicit event-step
semantics on a monitoring-session state record.
-/

namespace FurNet

/-! ## Friend linking (`addFriend`, App.jsx lines 51-113) -/

/-- The fields of a peer profile that `addFriend` reads from the decoded
`/api/me` body (`friendData.id`, `friendData.name`). -/
structure Profile where
  id : String
  name : String
deriving DecidableEq, Repr

/-- Outcome of the `fetch(friendMeUrl)` call together with `response.json()`
decoding: the transport can throw, the response can be non-ok, the body can
fail to decode, or a profile is obtained. -/
inductive MeFetch where
  | networkError (msg : String)
  | httpError (status : Nat)
  | badBody (msg : String)
  | okProfile (p : Profile)
deriving DecidableEq, Repr

/-- Holds (`true`) exactly when the profile fetch did not produce a decoded profile
(transport error, non-success status, or undecodable body). -/
def MeFetch.failed : MeFetch → Bool
  | .okProfile _ => false
  | _ => true

/-- The JSON body of the `POST /api/friends` request built in App.jsx
lines 87-91. -/
structure AddRequest where
  unique_id : String
  dns_name : String
  name : String
deriving DecidableEq, Repr

/-- Outcome of the `POST /api/friends` call: success, a non-ok response
carrying the decoded `detail` string, or a transport error. -/
inductive PostResult where
  | ok
  | httpError (detail : String)
  | networkError (msg : String)
deriving DecidableEq, Repr

/-- The network environment `addFriend` runs against: the response to a GET
of a given URL, and the response to a friend-registry add request. -/
structure NetEnv where
  me : String → MeFetch
  post : AddRequest → PostResult

/-- JavaScript `s.startsWith(pre)`, computed on the underlying character list. -/
def strStartsWith (s pre : String) : Bool :=
  pre.data.isPrefixOf s.data

/-- JavaScript `s.endsWith(suf)`, computed on the underlying character list. -/
def strEndsWith (s suf : String) : Bool :=
  suf.data.isSuffixOf s.data

/-- Remove the last character of a string. -/
def dropLastChar (s : String) : String :=
  ⟨s.data.dropLast⟩

/-- JavaScript `String.prototype.trim()`: strip whitespace from both ends
(modelled for the ASCII whitespace characters). -/
def jsTrim (s : String) : String :=
  ⟨((s.data.dropWhile Char.isWhitespace).reverse.dropWhile
      Char.isWhitespace).reverse⟩

/-- Scheme defaulting, App.jsx lines 60-62: if the trimmed URL starts with
neither `http://` nor `https://`, prepend `https://`. -/
def addScheme (s : String) : String :=
  if strStartsWith s "http://" || strStartsWith s "https://" then s
  else "https://" ++ s

/-- App.jsx line 65: `friendInstanceUrl.replace(/\/$/, '')` removes one
trailing slash if present. -/
def stripTrailingSlash (s : String) : String :=
  if strEndsWith s "/" then dropLastChar s else s

/-- URL canonicalization of App.jsx lines 60-65: default the scheme, then
strip one trailing slash. -/
def canonicalize (s : String) : String :=
  stripTrailingSlash (addScheme s)

/-- A character that the URL host parser does not stop at. Models the
delimiters ending the host portion of an `http(s)` URL (port, path, query,
fragment). -/
def isHostChar (c : Char) : Bool :=
  !(c == ':' || c == '/' || c == '?' || c == '#')

/-- Drop a leading `https://` or `http://` from a character list. -/
def stripSchemeChars : List Char → List Char
  | 'h' :: 't' :: 't' :: 'p' :: 's' :: ':' :: '/' :: '/' :: rest => rest
  | 'h' :: 't' :: 't' :: 'p' :: ':' :: '/' :: '/' :: rest => rest
  | cs => cs

/-- Model of the browser `new URL(u).hostname` used in App.jsx line 89, for
`http(s)://host[:port][/path]` URLs with plain ASCII hosts and no userinfo:
drop the scheme, then take characters up to the first `:`, `/`, `?` or `#`. -/
def hostname (s : String) : String :=
  ⟨(stripSchemeChars s.data).takeWhile isHostChar⟩

/-- The observable result of one `addFriend` invocation: the profile-fetch
URL it used, the registry add request it issued (if any), and the error it
surfaced (if any). -/
structure LinkTrace where
  meUrl : String
  addRequest : Option AddRequest
  error : Option String
deriving DecidableEq, Repr

/-- The friend-linking flow of App.jsx lines 57-97 (the `try` block of
`addFriend`, up to the registry response check): trim and canonicalize the
input URL, fetch `<canonical>/api/me`, throw on any fetch failure, reject a
self-link, otherwise issue the registry add request with the peer id, the
hostname of the canonical URL, and the peer name. (Thrown error messages are
carried as strings; wording abbreviated.) -/
def addFriend (selfId rawUrl : String) (env : NetEnv) : LinkTrace :=
  let friendInstanceUrl := canonicalize (jsTrim rawUrl)
  let friendMeUrl := friendInstanceUrl ++ "/api/me"
  match env.me friendMeUrl with
  | .networkError msg => ⟨friendMeUrl, none, some msg⟩
  | .httpError status =>
      ⟨friendMeUrl, none,
        some ("Failed to fetch friend profile from " ++ friendMeUrl
              ++ ". Status: " ++ toString status)⟩
  | .badBody msg => ⟨friendMeUrl, none, some msg⟩
  | .okProfile p =>
      if p.id == selfId then
        ⟨friendMeUrl, none, some "You cannot add yourself as a friend!"⟩
      else
        let req : AddRequest :=
          ⟨p.id, hostname friendInstanceUrl, p.name⟩
        match env.post req with
        | .ok => ⟨friendMeUrl, some req, none⟩
        | .httpError detail => ⟨friendMeUrl, some req, some detail⟩
        | .networkError msg => ⟨friendMeUrl, some req, some msg⟩

/-- Modelled from the spec: the backend Friend Registry (not under the
frontend sources) persists each accepted add request; applying a link
trace to the registry appends the issued request, and appends nothing when
no request was issued. -/
def registryAfter (reg : List AddRequest) (t : LinkTrace) : List AddRequest :=
  match t.addRequest with
  | none => reg
  | some req => reg ++ [req]

/-! ## Monitoring session (`Monitoring`, AnimalProfile.jsx lines 115-218)

The component keeps React state `instances`, `healthStatuses`, `isChecking`
and `lastChecked`. An effect keyed on `instances` (lines 143-156) clears the
previous interval, returns early when the set is empty, otherwise runs an
initial `checkHealth()` and installs a 5000 ms interval. `checkHealth`
(lines 158-194) POSTs the full instance list to `/api/health-check` and, on
success, replaces the status map wholesale and stamps `lastChecked`.

The embedding splits `checkHealth` at its `await` point: `startCheck` is the
synchronous prefix (guard, `setIsChecking(true)`, issuing the request) and
the `resolveOk` / `resolveFail` events are the continuation after the fetch
settles. `timerActive` records whether an interval is currently installed,
`inFlight` counts issued health-check requests not yet settled, and `probes`
logs the request bodies issued, oldest first. -/

/-- One health status record returned by `/api/health-check`, as consumed by
the component (keyed by `instance_url`). -/
structure HealthStatus where
  instance_url : String
  is_alive : Bool
  response_time_ms : Option Nat
  error : Option String
  name : Option String
  emoji : Option String
deriving DecidableEq, Repr

/-- Key lookup in a JS-object-like keyed map (`healthStatuses[url]`). -/
def mapLookup (m : List (String × HealthStatus)) (k : String) :
    Option HealthStatus :=
  (m.find? (fun p => p.1 == k)).map (fun p => p.2)

/-- Key deletion (`delete newStatuses[url]`) on a JS-object-like keyed map. -/
def mapErase (m : List (String × HealthStatus)) (k : String) :
    List (String × HealthStatus) :=
  m.filter (fun p => p.1 != k)

/-- Key assignment (`statusMap[key] = v`) on a JS-object-like keyed map: overwrite in place if
the key exists, else append. -/
def mapSet (m : List (String × HealthStatus)) (k : String) (v : HealthStatus) :
    List (String × HealthStatus) :=
  if m.any (fun p => p.1 == k) then
    m.map (fun p => if p.1 == k then (k, v) else p)
  else m ++ [(k, v)]

/-- AnimalProfile.jsx lines 182-185: convert the response array to an object
keyed by `instance_url`. -/
def toStatusMap (data : List HealthStatus) : List (String × HealthStatus) :=
  data.foldl (fun m st => mapSet m st.instance_url st) []

/-- The default list of monitored workshop instances, AnimalProfile.jsx
lines 117-134. -/
def defaultInstances : List String :=
  [ "https://viscon.monomorphic.party"
  , "https://dj-viscon-workshop-0.vsos.ethz.ch"
  , "https://dj-viscon-workshop-1.vsos.ethz.ch"
  , "https://dj-viscon-workshop-2.vsos.ethz.ch"
  , "https://dj-viscon-workshop-3.vsos.ethz.ch"
  , "https://dj-viscon-workshop-4.vsos.ethz.ch"
  , "https://dj-viscon-workshop-5.vsos.ethz.ch"
  , "https://dj-viscon-workshop-6.vsos.ethz.ch"
  , "https://dj-viscon-workshop-7.vsos.ethz.ch"
  , "https://dj-viscon-workshop-8.vsos.ethz.ch"
  , "https://dj-viscon-workshop-9.vsos.ethz.ch"
  , "https://dj-viscon-workshop-10.vsos.ethz.ch"
  , "https://dj-viscon-workshop-11.vsos.ethz.ch"
  , "https://dj-viscon-workshop-12.vsos.ethz.ch"
  , "https://dj-viscon-workshop-13.vsos.ethz.ch"
  , "https://dj-viscon-workshop-14.vsos.ethz.ch" ]

/-- The polling interval passed to `setInterval` in AnimalProfile.jsx
line 152, in milliseconds. -/
def pollIntervalMs : Nat := 5000

/-- State of one mounted `Monitoring` component, plus explicit bookkeeping
for the installed interval (`timerActive`), unsettled health-check requests
(`inFlight`) and the log of issued health-check request bodies (`probes`). -/
structure MonState where
  instances : List String
  healthStatuses : List (String × HealthStatus)
  isChecking : Bool
  lastChecked : Option Nat
  timerActive : Bool
  inFlight : Nat
  probes : List (List String)
deriving DecidableEq, Repr

/-- The state right after mounting, before the effect first runs:
`useState(defaultInstances)`, `useState({})`, `useState(false)`,
`useState(null)`; no interval installed, nothing in flight. -/
def initialState : MonState :=
  { instances := defaultInstances
  , healthStatuses := []
  , isChecking := false
  , lastChecked := none
  , timerActive := false
  , inFlight := 0
  , probes := [] }

/-- The synchronous prefix of `checkHealth` (lines 158-172): return early if
the instance set is empty; otherwise set `isChecking` and issue the
`POST /api/health-check` request whose body lists the current instances. -/
def startCheck (s : MonState) : MonState :=
  if s.instances.isEmpty then s
  else
    { s with isChecking := true
           , inFlight := s.inFlight + 1
           , probes := s.probes ++ [s.instances] }

/-- One run of the monitoring effect (lines 143-156): the cleanup of the
previous run clears the interval; then, if the instance set is empty, the
body returns before installing anything; otherwise it runs the initial
`checkHealth()` and installs the interval. -/
def runEffect (s : MonState) : MonState :=
  if s.instances.isEmpty then { s with timerActive := false }
  else startCheck { s with timerActive := true }

/-- The `addInstance` handler (lines 196-210) as a pure update: trim the input, ignore
an empty result, reject (unchanged, after an alert) a URL already present
under plain string equality, else append. -/
def addInstance (input : String) (s : MonState) : MonState :=
  if jsTrim input == "" then s
  else if s.instances.contains (jsTrim input) then s
  else { s with instances := s.instances ++ [jsTrim input] }

/-- The `removeInstance` handler (lines 212-218) as a pure update: filter the URL out of
the instance list and delete its entry from the status map. -/
def removeInstance (url : String) (s : MonState) : MonState :=
  { s with instances := s.instances.filter (fun i => i != url)
         , healthStatuses := mapErase s.healthStatuses url }

/-- Events driving one mounted `Monitoring` component. `effectRun` is the
effect executing (on mount); `add` and `remove` are the user actions, each
followed by the effect re-running because `setInstances` changed the
dependency array; `timerFire` is one tick of the installed interval;
`resolveOk data now` / `resolveFail` settle the oldest un-settled
health-check request with a decoded response array (and current time) or
with a non-ok / thrown outcome. -/
inductive MEv where
  | effectRun
  | timerFire
  | resolveOk (data : List HealthStatus) (now : Nat)
  | resolveFail
  | add (input : String)
  | remove (url : String)

/-- The step semantics of the `Monitoring` component. A timer tick calls
`checkHealth`, whose synchronous prefix is `startCheck` — note lines 158-194
consult only the emptiness guard, never `isChecking`, before issuing a new
request. A settled successful request replaces the status map wholesale and
stamps `lastChecked` (lines 179-188); a failed one only resets `isChecking`
(lines 174-177 and 189-193). An `add` whose `setInstances` fired re-runs the
effect, as does every `remove`. -/
def step (s : MonState) : MEv → MonState
  | .effectRun => runEffect s
  | .timerFire => if s.timerActive then startCheck s else s
  | .resolveOk data now =>
      if s.inFlight > 0 then
        { s with healthStatuses := toStatusMap data
               , lastChecked := some now
               , isChecking := false
               , inFlight := s.inFlight - 1 }
      else s
  | .resolveFail =>
      if s.inFlight > 0 then
        { s with isChecking := false, inFlight := s.inFlight - 1 }
      else s
  | .add input =>
      if jsTrim input == "" then s
      else if s.instances.contains (jsTrim input) then s
      else runEffect (addInstance input s)
  | .remove url => runEffect (removeInstance url s)

/-- Run a sequence of events from the freshly mounted component. -/
def runEvents (evs : List MEv) : MonState :=
  evs.foldl step initialState

/-- Outcome of the `fetch('/api/health-check', ...)` call in `checkHealth`:
a decoded response array (with the wall-clock time of `new Date()`), a
non-ok response, or a thrown transport error. -/
inductive HCFetch where
  | ok (data : List HealthStatus) (now : Nat)
  | httpError
  | networkError (msg : String)
deriving Repr

/-- Holds (`true`) exactly when the health-check request did not yield a decoded
response array (non-success status, or the fetch / decode threw). -/
def HCFetch.failed : HCFetch → Bool
  | .ok _ _ => false
  | _ => true

/-- One whole `checkHealth` invocation (lines 158-194) as a single
state-to-state function, given how its fetch settles: guard on an empty
instance set, issue the request, then either merge the results and stamp
`lastChecked`, or (non-ok response / thrown error) leave them untouched;
the `finally` clause resets `isChecking` either way. -/
def checkHealthRun (s : MonState) (r : HCFetch) : MonState :=
  if s.instances.isEmpty then s
  else
    let s := { s with probes := s.probes ++ [s.instances] }
    match r with
    | .ok data now =>
        { s with healthStatuses := toStatusMap data
               , lastChecked := some now
               , isChecking := false }
    | .httpError => { s with isChecking := false }
    | .networkError _ => { s with isChecking := false }


/-- Helper: `takeWhile` walks through a block of characters that all satisfy
the predicate. -/
theorem takeWhile_append_of_all {p : Char → Bool} {l : List Char} (r : List Char)
    (h : ∀ c ∈ l, p c = true) : (l ++ r).takeWhile p = l ++ r.takeWhile p := by
  induction l with
  | nil => simp
  | cons a l ih =>
      rw [List.cons_append, List.takeWhile_cons_of_pos (h a (by simp)),
        ih (fun c hc => h c (by simp [hc])), List.cons_append]

/-- Helper: dropping the scheme from `https://` followed by anything keeps
exactly the remainder. -/
theorem stripScheme_https (l : List Char) :
    stripSchemeChars ("https://".data ++ l) = l := by
  show stripSchemeChars ('h' :: 't' :: 't' :: 'p' :: 's' :: ':' :: '/' :: '/' :: l) = l
  rfl

/-- Helper: the host parser applied to `https://` + host characters + a
remainder that starts with a delimiter returns exactly the host. -/
theorem hostname_of_data (host : String) (rest : List Char)
    (hall : ∀ c ∈ host.data, isHostChar c = true)
    (hrest : rest.takeWhile isHostChar = []) :
    (⟨(stripSchemeChars ("https://".data ++ (host.data ++ rest))).takeWhile
        isHostChar⟩ : String) = host := by
  rw [stripScheme_https, takeWhile_append_of_all rest hall, hrest,
    List.append_nil]

/-- C1: in `addFriend`, the registry add request is issued only after the
peer profile was fetched and decoded from `<canonical>/api/me`; whenever
that fetch fails (transport error, non-success status, or undecodable
body) the operation surfaces an error, no add request is issued, and the
registry is unchanged. -/
theorem linkFriend_aborts_on_fetch_failure (selfId rawUrl : String)
    (env : NetEnv)
    (h : (env.me (canonicalize (jsTrim rawUrl) ++ "/api/me")).failed = true) :
    ((addFriend selfId rawUrl env).error).isSome = true
    ∧ (addFriend selfId rawUrl env).addRequest = none
    ∧ ∀ reg, registryAfter reg (addFriend selfId rawUrl env) = reg := by
  cases hm : env.me (canonicalize (jsTrim rawUrl) ++ "/api/me") with
  | okProfile p => rw [hm] at h; exact absurd h (by simp [MeFetch.failed])
  | networkError msg => simp [addFriend, hm, registryAfter]
  | httpError status => simp [addFriend, hm, registryAfter]
  | badBody msg => simp [addFriend, hm, registryAfter]

/-- Witness for C1 at a concrete input: a 404 on the profile fetch yields no
registry add request. -/
theorem linkFriend_aborts_witness :
    ((FurNet.addFriend "self-1" "friend.example.com"
        ⟨fun _ => .httpError 404, fun _ => .ok⟩).addRequest = none) :=
  (linkFriend_aborts_on_fetch_failure "self-1" "friend.example.com"
    ⟨fun _ => .httpError 404, fun _ => .ok⟩ (by decide)).2.1

/-- C2: whenever the fetched profile's `id` equals the caller's own id,
`addFriend` fails with the self-link rejection error, no registry add
request is issued (the check precedes the add), and the registry is
unchanged. -/
theorem linkFriend_rejects_self_link (selfId rawUrl : String) (env : NetEnv)
    (p : Profile)
    (hme : env.me (canonicalize (jsTrim rawUrl) ++ "/api/me") = .okProfile p)
    (hid : p.id = selfId) :
    (addFriend selfId rawUrl env).error
        = some "You cannot add yourself as a friend!"
    ∧ (addFriend selfId rawUrl env).addRequest = none
    ∧ ∀ reg, registryAfter reg (addFriend selfId rawUrl env) = reg := by
  simp [addFriend, hme, hid, registryAfter]

/-- C3: canonicalization prefixes `https://` to any input without an
`http://` or `https://` prefix and strips exactly one trailing slash;
`friend.example.com` maps to `https://friend.example.com`,
`https://friend.example.com/` maps to `https://friend.example.com`, only
one slash is stripped, and the profile fetch target is always the
canonical URL followed by `/api/me`. -/
theorem canonicalize_spec (s : String)
    (h1 : strStartsWith s "http://" = false)
    (h2 : strStartsWith s "https://" = false) :
    canonicalize s = stripTrailingSlash ("https://" ++ s)
    ∧ canonicalize "friend.example.com" = "https://friend.example.com"
    ∧ canonicalize "https://friend.example.com/" = "https://friend.example.com"
    ∧ canonicalize "https://x//" = "https://x/"
    ∧ ∀ selfId rawUrl : String, ∀ env : NetEnv,
        (addFriend selfId rawUrl env).meUrl
          = canonicalize (jsTrim rawUrl) ++ "/api/me" := by
  refine ⟨?_, by decide, by decide, by decide, ?_⟩
  · unfold canonicalize addScheme
    rw [h1, h2]
    simp
  · intro selfId rawUrl env
    cases hm : env.me (canonicalize (jsTrim rawUrl) ++ "/api/me") with
    | okProfile p =>
        simp only [addFriend, hm]
        split
        · rfl
        · split <;> rfl
    | networkError msg => simp [addFriend, hm]
    | httpError status => simp [addFriend, hm]
    | badBody msg => simp [addFriend, hm]

/-- C9: the `dns_name` submitted to the registry is exactly the hostname
portion of the canonical URL — scheme, port and path discarded — and the
issued record is `{unique_id: peer.id, dns_name, name: peer.name}`. -/
theorem linkFriend_dns_name (selfId rawUrl : String) (env : NetEnv)
    (p : Profile)
    (hme : env.me (canonicalize (jsTrim rawUrl) ++ "/api/me") = .okProfile p)
    (hid : p.id ≠ selfId) :
    (addFriend selfId rawUrl env).addRequest
      = some ⟨p.id, hostname (canonicalize (jsTrim rawUrl)), p.name⟩
    ∧ (∀ host : String, (∀ c ∈ host.data, isHostChar c = true) →
        hostname ("https://" ++ host) = host)
    ∧ (∀ host port : String, (∀ c ∈ host.data, isHostChar c = true) →
        hostname ("https://" ++ host ++ ":" ++ port) = host)
    ∧ (∀ host path : String, (∀ c ∈ host.data, isHostChar c = true) →
        hostname ("https://" ++ host ++ "/" ++ path) = host) := by
  refine ⟨?_, ?_, ?_, ?_⟩
  · cases hp : env.post ⟨p.id, hostname (canonicalize (jsTrim rawUrl)), p.name⟩ with
    | ok => simp [addFriend, hme, hid, hp]
    | httpError detail => simp [addFriend, hme, hid, hp]
    | networkError msg => simp [addFriend, hme, hid, hp]
  · intro host hall
    unfold hostname
    have hd : ("https://" ++ host).data = "https://".data ++ (host.data ++ []) := by
      simp [String.data_append]
    rw [hd]
    exact hostname_of_data host [] hall rfl
  · intro host port hall
    unfold hostname
    have hd : ("https://" ++ host ++ ":" ++ port).data
        = "https://".data ++ (host.data ++ (':' :: port.data)) := by
      simp [String.data_append]
    rw [hd]
    exact hostname_of_data host (':' :: port.data) hall
      (List.takeWhile_cons_of_neg (by decide))
  · intro host path hall
    unfold hostname
    have hd : ("https://" ++ host ++ "/" ++ path).data
        = "https://".data ++ (host.data ++ ('/' :: path.data)) := by
      simp [String.data_append]
    rw [hd]
    exact hostname_of_data host ('/' :: path.data) hall
      (List.takeWhile_cons_of_neg (by decide))

/-- C10: when a health-check cycle fails as a whole (non-success status or
thrown fetch), the status map, the last-checked timestamp and the instance
list keep their previous values and only the in-progress flag is reset. -/
theorem checkHealth_failure_frame (s : MonState) (r : HCFetch)
    (hne : s.instances.isEmpty = false) (hf : r.failed = true) :
    (checkHealthRun s r).healthStatuses = s.healthStatuses
    ∧ (checkHealthRun s r).lastChecked = s.lastChecked
    ∧ (checkHealthRun s r).isChecking = false
    ∧ (checkHealthRun s r).instances = s.instances := by
  cases r with
  | ok data now => exact absurd hf (by simp [HCFetch.failed])
  | httpError => simp [checkHealthRun, hne]
  | networkError msg => simp [checkHealthRun, hne]


/-- Helper: `startCheck` never changes the instance list. -/
theorem startCheck_instances (s : MonState) :
    (startCheck s).instances = s.instances := by
  unfold startCheck; split <;> rfl

/-- Helper: `startCheck` never changes the interval bookkeeping. -/
theorem startCheck_timerActive (s : MonState) :
    (startCheck s).timerActive = s.timerActive := by
  unfold startCheck; split <;> rfl

/-- Helper: the monitoring effect never changes the instance list. -/
theorem runEffect_instances (s : MonState) :
    (runEffect s).instances = s.instances := by
  unfold runEffect
  split_ifs
  · rfl
  · rw [startCheck_instances]

/-- Helper: right after the effect runs, an installed interval implies a
non-empty instance set (the effect returns early on an empty set). -/
theorem runEffect_timerOk (s : MonState) :
    (runEffect s).timerActive = true → (runEffect s).instances ≠ [] := by
  unfold runEffect
  split_ifs with h
  · intro hfalse
    simp at hfalse
  · intro _
    rw [startCheck_instances]
    intro hnil
    exact h (by simp [show s.instances = [] from hnil])

/-- Helper: every event preserves the invariant that an installed interval
implies a non-empty instance set. -/
theorem step_timerOk (s : MonState) (ev : MEv)
    (h : s.timerActive = true → s.instances ≠ []) :
    (step s ev).timerActive = true → (step s ev).instances ≠ [] := by
  cases ev with
  | effectRun => exact runEffect_timerOk s
  | timerFire =>
      simp only [step]
      split_ifs with ht
      · rw [startCheck_instances, startCheck_timerActive]
        exact h
      · exact h
  | resolveOk data now =>
      simp only [step]
      split_ifs with hf
      · exact h
      · exact h
  | resolveFail =>
      simp only [step]
      split_ifs with hf
      · exact h
      · exact h
  | add input =>
      simp only [step]
      split_ifs with he hc
      · exact h
      · exact h
      · exact runEffect_timerOk _
  | remove url => exact runEffect_timerOk _

/-- Helper: the interval/non-empty invariant holds along every event
sequence. -/
theorem foldl_timerOk (evs : List MEv) :
    ∀ s : MonState, (s.timerActive = true → s.instances ≠ []) →
      ((evs.foldl step s).timerActive = true → (evs.foldl step s).instances ≠ []) := by
  induction evs with
  | nil => intro s hs; exact hs
  | cons ev evs ih => intro s hs; exact ih (step s ev) (step_timerOk s ev hs)

/-- C4 counterexample: `checkHealth` never consults `isChecking` before
issuing a request, so a timer fire while the initial check is still in
flight starts a second overlapping cycle; the at-most-one-in-flight
property claimed for the monitoring session is false. -/
theorem mon_overlap_counterexample :
    (runEvents [MEv.effectRun, MEv.timerFire]).inFlight = 2
    ∧ ¬ ∀ evs : List MEv, (runEvents evs).inFlight ≤ 1 := by
  refine ⟨by decide, fun h => ?_⟩
  exact absurd (h [MEv.effectRun, MEv.timerFire]) (by decide)

/-- C4 amended: whenever the interval is installed and the monitored set is
non-empty, a timer fire unconditionally starts a new health-check cycle —
even while a previous cycle is still in flight — so overlapping cycles can
occur (the `isChecking` flag is display-only and never guards). -/
theorem mon_timerFire_starts_overlapping_cycle (s : MonState)
    (ht : s.timerActive = true) (hne : s.instances.isEmpty = false) :
    (step s MEv.timerFire).inFlight = s.inFlight + 1
    ∧ (step s MEv.timerFire).probes = s.probes ++ [s.instances]
    ∧ (step s MEv.timerFire).isChecking = true := by
  simp [step, startCheck, ht, hne]

/-- Witness for C4: from a state with one request already in flight, a timer
fire brings the in-flight count to two. -/
theorem mon_timerFire_starts_overlapping_cycle_witness :
    (step { initialState with timerActive := true, inFlight := 1 }
        MEv.timerFire).inFlight = 2 :=
  (mon_timerFire_starts_overlapping_cycle
    { initialState with timerActive := true, inFlight := 1 }
    (by decide) (by decide)).1

/-- C5 counterexample: after removing every monitored instance the effect
re-runs, clears the interval and returns before installing a new one, so
with an empty monitored set the timer is torn down rather than kept
running; the claimed keep-running behavior is false. -/
theorem mon_empty_set_timer_counterexample :
    (runEvents (MEv.effectRun :: defaultInstances.map MEv.remove)).instances = []
    ∧ (runEvents (MEv.effectRun :: defaultInstances.map MEv.remove)).timerActive
        = false
    ∧ ¬ ∀ evs : List MEv,
        (runEvents evs).instances = [] → (runEvents evs).timerActive = true := by
  refine ⟨by decide, by decide, fun h => ?_⟩
  exact absurd
    (h (MEv.effectRun :: defaultInstances.map MEv.remove) (by decide))
    (by decide)

/-- C5 amended: the polling interval is 5000 ms and each timer fire with a
non-empty set issues a probe of the whole set; `checkHealth` skips the
cycle on an empty set; but whenever the monitored set is empty no interval
is installed at all (the timer is torn down, not kept running). -/
theorem mon_polling_and_empty_set (evs : List MEv)
    (hempty : (runEvents evs).instances = []) :
    pollIntervalMs = 5000
    ∧ (∀ s : MonState, s.timerActive = true → s.instances.isEmpty = false →
        (step s MEv.timerFire).probes = s.probes ++ [s.instances])
    ∧ (∀ s : MonState, s.instances.isEmpty = true → startCheck s = s)
    ∧ (runEvents evs).timerActive = false := by
  refine ⟨rfl, ?_, ?_, ?_⟩
  · intro s ht hne
    exact (mon_timerFire_starts_overlapping_cycle s ht hne).2.1
  · intro s hs
    simp [startCheck, hs]
  · by_cases hb : (runEvents evs).timerActive
    · exact absurd hempty (foldl_timerOk evs initialState (by simp [initialState]) hb)
    · simpa using hb

/-- Witness for C5: after mounting and removing every default instance, the
interval is gone. -/
theorem mon_polling_and_empty_set_witness :
    (runEvents (MEv.effectRun :: defaultInstances.map MEv.remove)).timerActive
      = false :=
  (mon_polling_and_empty_set (MEv.effectRun :: defaultInstances.map MEv.remove)
    (by decide)).2.2.2

/-- C6 counterexample: adding a URL re-triggers the monitoring effect,
whose initial `checkHealth()` immediately probes the updated set, so the
claim that an add never triggers an immediate probe is false. -/
theorem mon_add_immediate_probe_counterexample :
    (step initialState (MEv.add "https://new.example.com")).probes
      = [defaultInstances ++ ["https://new.example.com"]]
    ∧ initialState.probes = []
    ∧ ¬ ∀ (s : MonState) (u : String),
        (step s (MEv.add u)).probes = s.probes := by
  refine ⟨by decide, rfl, fun h => ?_⟩
  exact absurd (h initialState "https://new.example.com") (by decide)

/-- C6 amended: adding a fresh non-empty trimmed URL appends it to the
monitored set and immediately issues a health-check request containing the
new URL (the effect re-runs its initial check), besides resetting the
interval. -/
theorem mon_add_triggers_immediate_probe (s : MonState) (input : String)
    (h1 : (jsTrim input == "") = false)
    (h2 : s.instances.contains (jsTrim input) = false) :
    (step s (MEv.add input)).instances = s.instances ++ [jsTrim input]
    ∧ (step s (MEv.add input)).probes
        = s.probes ++ [s.instances ++ [jsTrim input]]
    ∧ (step s (MEv.add input)).timerActive = true := by
  have ha : addInstance input s
      = { s with instances := s.instances ++ [jsTrim input] } := by
    unfold addInstance
    simp only [h1, h2]
    simp
  simp only [step, h1, h2]
  simp only [Bool.false_eq_true, if_false]
  rw [ha]
  unfold runEffect startCheck
  simp

/-- Witness for C6: adding a URL to the freshly mounted state immediately
issues a probe of the whole updated set. -/
theorem mon_add_triggers_immediate_probe_witness :
    (step initialState (MEv.add "https://new.example.com")).probes
      = initialState.probes ++ [initialState.instances ++ ["https://new.example.com"]] := by
  have h := (mon_add_triggers_immediate_probe initialState "https://new.example.com"
      (by decide) (by decide)).2.1
  rw [h]
  decide

/-- Witness for C2 at a concrete input: a peer reporting the caller's own id
yields no registry add request. -/
theorem linkFriend_rejects_self_link_witness :
    (addFriend "self-1" "https://peer.example.com"
        ⟨fun _ => .okProfile ⟨"self-1", "Me"⟩, fun _ => .ok⟩).addRequest
      = none :=
  (linkFriend_rejects_self_link "self-1" "https://peer.example.com"
    ⟨fun _ => .okProfile ⟨"self-1", "Me"⟩, fun _ => .ok⟩ ⟨"self-1", "Me"⟩
    rfl rfl).2.1

/-- Witness for C3 at the spec's example input. -/
theorem canonicalize_spec_witness :
    strStartsWith "friend.example.com" "http://" = false
    ∧ canonicalize "friend.example.com"
        = stripTrailingSlash ("https://" ++ "friend.example.com") :=
  ⟨by decide,
    (canonicalize_spec "friend.example.com" (by decide) (by decide)).1⟩

/-- Witness for C9 at a concrete input: scheme, port and path are all
discarded from the submitted `dns_name`. -/
theorem linkFriend_dns_name_witness :
    (addFriend "self-1" "peer.example.com:8080/x"
        ⟨fun _ => .okProfile ⟨"peer-1", "Peer"⟩, fun _ => .ok⟩).addRequest
      = some ⟨"peer-1", "peer.example.com", "Peer"⟩ := by
  have h := (linkFriend_dns_name "self-1" "peer.example.com:8080/x"
      ⟨fun _ => .okProfile ⟨"peer-1", "Peer"⟩, fun _ => .ok⟩ ⟨"peer-1", "Peer"⟩
      rfl (by decide)).1
  rw [h]
  decide

/-- Witness for C10 at a concrete input: a non-ok health-check response
leaves `lastChecked` at its previous value. -/
theorem checkHealth_failure_frame_witness :
    (checkHealthRun { initialState with lastChecked := some 5 }
        HCFetch.httpError).lastChecked = some 5 :=
  (checkHealth_failure_frame { initialState with lastChecked := some 5 }
    HCFetch.httpError (by decide) (by decide)).2.1

/-- Helper: deleting one key from a keyed map does not disturb lookups of
other keys. -/
theorem find_erase_ne (m : List (String × HealthStatus)) (k u : String)
    (h : u ≠ k) :
    (mapErase m k).find? (fun p => p.1 == u) = m.find? (fun p => p.1 == u) := by
  induction m with
  | nil => rfl
  | cons a m ih =>
      unfold mapErase at ih ⊢
      by_cases hk : a.1 = k
      · rw [List.filter_cons_of_neg (by simp [hk]), ih,
          List.find?_cons_of_neg _ (by simp [hk]; exact fun he => h he.symm)]
      · rw [List.filter_cons_of_pos (by simp [hk])]
        by_cases hu : a.1 = u
        · rw [List.find?_cons_of_pos _ (by simp [hu]),
            List.find?_cons_of_pos _ (by simp [hu])]
        · rw [List.find?_cons_of_neg _ (by simp [hu]),
            List.find?_cons_of_neg _ (by simp [hu]), ih]

/-- C7: `removeInstance` removes the URL from the instance list and deletes
its entry from the health-status map in the same operation, while every
other URL's status entry and list membership are unchanged. -/
theorem removeInstance_frame (s : MonState) (url : String) :
    url ∉ (removeInstance url s).instances
    ∧ mapLookup (removeInstance url s).healthStatuses url = none
    ∧ (∀ u : String, u ≠ url →
        mapLookup (removeInstance url s).healthStatuses u
          = mapLookup s.healthStatuses u)
    ∧ (∀ u : String, u ≠ url →
        (u ∈ (removeInstance url s).instances ↔ u ∈ s.instances)) := by
  refine ⟨?_, ?_, ?_, ?_⟩
  · intro hm
    rcases List.mem_filter.mp hm with ⟨_, hb⟩
    simp at hb
  · unfold mapLookup removeInstance mapErase
    rw [List.find?_eq_none.mpr ?_]
    · rfl
    · intro x hx
      rcases List.mem_filter.mp hx with ⟨_, hb⟩
      simpa using hb
  · intro u hu
    unfold mapLookup removeInstance
    rw [find_erase_ne s.healthStatuses url u hu]
  · intro u hu
    unfold removeInstance
    constructor
    · intro hm
      exact (List.mem_filter.mp hm).1
    · intro hm
      exact List.mem_filter.mpr ⟨hm, by simp [hu]⟩

/-- Witness for C7 at a concrete state: removing one URL keeps the other
URL's status entry intact. -/
theorem removeInstance_frame_witness :
    mapLookup (removeInstance "https://a"
        { initialState with healthStatuses :=
            [("https://a", ⟨"https://a", true, some 3, none, none, none⟩),
             ("https://b", ⟨"https://b", false, none, some "timeout", none, none⟩)]
        }).healthStatuses "https://b"
      = some ⟨"https://b", false, none, some "timeout", none, none⟩ := by
  have h := (removeInstance_frame
      { initialState with healthStatuses :=
          [("https://a", ⟨"https://a", true, some 3, none, none, none⟩),
           ("https://b", ⟨"https://b", false, none, some "timeout", none, none⟩)]
      } "https://a").2.2.1 "https://b" (by decide)
  rw [h]
  decide

/-- Helper: `addInstance` preserves distinctness of the monitored URLs. -/
theorem addInstance_nodup (input : String) (s : MonState)
    (h : s.instances.Nodup) : (addInstance input s).instances.Nodup := by
  unfold addInstance
  split_ifs with he hc
  · exact h
  · exact h
  · rw [List.nodup_append]
    refine ⟨h, List.nodup_singleton _, fun x hx hmem => ?_⟩
    rw [List.mem_singleton] at hmem
    subst hmem
    exact hc (List.elem_iff.mpr hx)

/-- Helper: every event preserves distinctness of the monitored URLs. -/
theorem step_nodup (s : MonState) (ev : MEv) (h : s.instances.Nodup) :
    (step s ev).instances.Nodup := by
  cases ev with
  | effectRun =>
      rw [show (step s MEv.effectRun) = runEffect s from rfl, runEffect_instances]
      exact h
  | timerFire =>
      simp only [step]
      split_ifs
      · rw [startCheck_instances]; exact h
      · exact h
  | resolveOk data now =>
      simp only [step]
      split_ifs
      · exact h
      · exact h
  | resolveFail =>
      simp only [step]
      split_ifs
      · exact h
      · exact h
  | add input =>
      simp only [step]
      split_ifs
      · exact h
      · exact h
      · rw [runEffect_instances]
        exact addInstance_nodup input s h
  | remove url =>
      rw [show (step s (MEv.remove url)) = runEffect (removeInstance url s)
          from rfl, runEffect_instances]
      exact List.Nodup.filter _ h

/-- Helper: distinctness of the monitored URLs holds along every event
sequence. -/
theorem foldl_nodup (evs : List MEv) :
    ∀ s : MonState, s.instances.Nodup → ((evs.foldl step s).instances).Nodup := by
  induction evs with
  | nil => intro s hs; exact hs
  | cons ev evs ih => intro s hs; exact ih (step s ev) (step_nodup s ev hs)

/-- C8: the monitored set never contains duplicates under plain string
equality: it holds along every event sequence, `addInstance` leaves the
state unchanged when the trimmed URL is already present, and without
canonicalization `http://x` is accepted alongside `https://x/`. -/
theorem monitored_set_nodup :
    (∀ evs : List MEv, (runEvents evs).instances.Nodup)
    ∧ (∀ (s : MonState) (input : String),
        s.instances.contains (jsTrim input) = true → step s (MEv.add input) = s)
    ∧ (step { initialState with instances := ["https://x/"] }
        (MEv.add "http://x")).instances = ["https://x/", "http://x"] := by
  refine ⟨?_, ?_, by decide⟩
  · intro evs
    exact foldl_nodup evs initialState (by decide)
  · intro s input hc
    simp only [step]
    split_ifs with h1
    · rfl
    · rfl

/-- Witness for C8: adding an already-present URL leaves the state
unchanged. -/
theorem monitored_set_nodup_witness :
    step { initialState with instances := ["https://x/"] } (MEv.add "https://x/")
      = { initialState with instances := ["https://x/"] } :=
  monitored_set_nodup.2.1 { initialState with instances := ["https://x/"] }
    "https://x/" (by decide)

end FurNet
